import Mathlib

/-!
Verification of the shared-background resolver (src/components/SharedBackground.tsx).

The development shallowly embeds the cache store (getCachedBackground /
setCachedBackground), the fallback-gradient palette, the timed multi-source
image resolution (loadImageWithTimeout / tryLoadImageFromSources), the
provider's initialization effect (initBackground), the consumer operations
(setLoaded, refreshBackground) and the context accessor (useBackground).

Modelling conventions:
- localStorage is a `Storage` value: either unavailable (every access throws,
  which the source catches) or a single cell that is empty, holds a JSON blob
  that fails to parse (`malformed`), or parses to a `BackgroundCache` record.
- `Date.now()` values are natural numbers of epoch milliseconds.
- `Math.random()`-driven gradient selection is an index into the palette,
  passed in as a `Fin FALLBACK_GRADIENTS.length` argument.
- The async control flow is split at its await points: `initBackgroundSync`
  is everything the effect runs synchronously (cache lookup, fallback
  selection and persistence) and returns, besides the new state and storage,
  whether the background fetch of step 3 is started; `initBackgroundCont` is
  the continuation that resumes after `await tryLoadImageFromSources()`, and
  receives the value of the `mounted` liveness flag at resume time.
- JavaScript truthiness of a `string | null` is the `truthy` predicate
  (null and the empty string are falsy).
-/

namespace SharedBackground

/-- The type field of the persisted record: image or gradient. -/
inductive CacheType where
  | image
  | gradient
deriving DecidableEq, Repr

/-- The persisted record shape (interface BackgroundCache, lines 77-82). -/
structure BackgroundCache where
  url : String
  timestamp : Nat
  type : CacheType
  value : String
deriving DecidableEq, Repr

/-- Content of the single localStorage cell under BG_CACHE_KEY. -/
inductive StorageCell where
  | empty
  | malformed (raw : String)
  | record (rec : BackgroundCache)
deriving DecidableEq, Repr

/-- The storage layer: unavailable storage throws on access (caught by the
source); otherwise it holds one cell. -/
inductive Storage where
  | unavailable
  | available (cell : StorageCell)
deriving DecidableEq, Repr

/-- BG_EXPIRE_TIME = 24 * 60 * 60 * 1000 (line 60). -/
def BG_EXPIRE_TIME : Nat := 24 * 60 * 60 * 1000

/-- LOAD_TIMEOUT = 8000 (line 61). -/
def LOAD_TIMEOUT : Nat := 8000

/-- The curated fallback gradient palette (lines 64-75). -/
def FALLBACK_GRADIENTS : List String :=
  [ "linear-gradient(135deg, #667eea 0%, #764ba2 100%)"
  , "linear-gradient(135deg, #f093fb 0%, #f5576c 100%)"
  , "linear-gradient(135deg, #4facfe 0%, #00f2fe 100%)"
  , "linear-gradient(135deg, #43e97b 0%, #38f9d7 100%)"
  , "linear-gradient(135deg, #fa709a 0%, #fee140 100%)"
  , "linear-gradient(135deg, #30cfd0 0%, #330867 100%)"
  , "linear-gradient(135deg, #a8edea 0%, #fed6e3 100%)"
  , "linear-gradient(135deg, #ff9a9e 0%, #fecfef 100%)"
  , "linear-gradient(135deg, #ffecd2 0%, #fcb69f 100%)"
  , "linear-gradient(135deg, #ff6e7f 0%, #bfe9ff 100%)" ]

/-- getCachedBackground (lines 85-105). `hw` is `typeof window !== 'undefined'`.
Returns the parsed record (or none) together with storage after the read's
side effect. The catch-all returns null without touching storage, so an
unparseable cell is kept; an expired record is removed. -/
def getCachedBackground (hw : Bool) (s : Storage) (now : Nat) :
    Option BackgroundCache × Storage :=
  if !hw then (none, s)
  else
    match s with
    | Storage.unavailable => (none, s)
    | Storage.available StorageCell.empty => (none, s)
    | Storage.available (StorageCell.malformed _) => (none, s)
    | Storage.available (StorageCell.record rec) =>
      if now - rec.timestamp > BG_EXPIRE_TIME then
        (none, Storage.available StorageCell.empty)
      else (some rec, s)

/-- setCachedBackground (lines 108-122). A write to unavailable storage throws
and is swallowed (storage unchanged); otherwise the cell is overwritten with
the record, whose url and value fields are both the written value. -/
def setCachedBackground (hw : Bool) (s : Storage) (now : Nat)
    (type : CacheType) (value : String) : Storage :=
  if !hw then s
  else
    match s with
    | Storage.unavailable => s
    | Storage.available _ =>
      Storage.available (StorageCell.record ⟨value, now, type, value⟩)

/-- getRandomGradient (lines 125-128): Math.floor(Math.random() * length) is a
uniformly random valid index into the palette, taken here as an argument. -/
def getRandomGradient (randIdx : Fin FALLBACK_GRADIENTS.length) : String :=
  FALLBACK_GRADIENTS.get randIdx

/-- The provider's shared state: the two useState cells (lines 197-198). -/
structure ResolverState where
  backgroundUrl : String
  isLoaded : Bool
deriving DecidableEq, Repr

/-- The state at mount: useState with the empty string, useState with false. -/
def initialResolverState : ResolverState := ⟨"", false⟩

/-- JavaScript truthiness of a `string | null` value: null and "" are falsy. -/
def truthy : Option String → Bool
  | none => false
  | some u => u != ""

/-- The consumer's discrimination of the display value
(SharedBackground, line 10): gradient values carry the gradient: marker. -/
def isGradientUrl (u : String) : Bool :=
  u.startsWith "gradient:"

/-- The consumer renders an img element only for a non-gradient, non-empty
value (SharedBackground, line 29). -/
def rendersImage (u : String) : Bool :=
  !isGradientUrl u && u != ""

/-- setLoaded (lines 248-250): setIsLoaded(true). -/
def setLoaded (st : ResolverState) : ResolverState :=
  { st with isLoaded := true }

/-- The three ways the race inside loadImageWithTimeout can settle: the image
load event, the image error event, or the 8-second timer. -/
inductive RaceSignal where
  | load
  | error
  | timer
deriving DecidableEq, Repr

/-- One handler invocation of the race (lines 143-165). The accumulator is the
promise: none while pending, some r once resolved with r. Every handler first
checks the resolved flag, so a signal arriving after settlement is a no-op
(the cleanup of listeners and timer makes late signals harmless). -/
def raceStep (url : String) (st : Option (Option String)) (sig : RaceSignal) :
    Option (Option String) :=
  match st with
  | some r => some r
  | none =>
    match sig with
    | RaceSignal.load => some (some url)
    | RaceSignal.error => some none
    | RaceSignal.timer => some none

/-- loadImageWithTimeout (lines 131-169), as a function of the chronological
list of signals the environment delivers. The result is none while no signal
has arrived (promise pending; the timer guarantees this cannot persist past
LOAD_TIMEOUT), some (some url) when the load event won the race, and
some none when the error event or the timer won. The promise never rejects. -/
def loadImageWithTimeout (url : String) (signals : List RaceSignal) :
    Option (Option String) :=
  signals.foldl (raceStep url) none

/-- The for-loop of tryLoadImageFromSources (lines 184-191) over an arbitrary
source list. Each attempt may resolve with a string or null, or throw
(Except.error); a throw is caught and the loop continues with the next source.
A truthy result returns immediately, skipping all later sources. -/
def tryLoadFromSources (attempt : String → Except Unit (Option String)) :
    List String → Option String
  | [] => none
  | src :: rest =>
    match attempt src with
    | Except.ok result =>
      if truthy result then result else tryLoadFromSources attempt rest
    | Except.error _ => tryLoadFromSources attempt rest

/-- Same loop, additionally returning the list of sources actually attempted,
in order. -/
def tryLoadFromSourcesTrace (attempt : String → Except Unit (Option String)) :
    List String → Option String × List String
  | [] => (none, [])
  | src :: rest =>
    match attempt src with
    | Except.ok result =>
      if truthy result then (result, [src])
      else
        let r := tryLoadFromSourcesTrace attempt rest
        (r.fst, src :: r.snd)
    | Except.error _ =>
      let r := tryLoadFromSourcesTrace attempt rest
      (r.fst, src :: r.snd)

/-- What one attempt contributes to the loop: its resolved value when it is
truthy, and nothing when it resolved falsy or threw. -/
def attemptYields (r : Except Unit (Option String)) : Option String :=
  match r with
  | Except.ok v => if truthy v then v else none
  | Except.error _ => none

/-- window.innerWidth < 768 (line 174). -/
def isMobileWidth (innerWidth : Nat) : Bool :=
  innerWidth < 768

/-- The size hint of the first source (line 175). -/
def sizeHint (isMobile : Bool) : String :=
  if isMobile then "w=800" else "w=1920"

/-- The ordered source list (lines 178-182), parameterized by the size hint
and the cache-busting timestamp. -/
def imgSources (size : String) (timestamp : Nat) : List String :=
  [ "https://loliapi.com/acg/?" ++ size ++ "&" ++ toString timestamp
  , "https://api.vvhan.com/api/wallpaper/acg?type=json&" ++ toString timestamp
  , "https://api.ixiaowai.cn/api/api.php?" ++ toString timestamp ]

/-- tryLoadImageFromSources (lines 172-194): builds the source list from the
viewport width and timestamp, then runs the sequential loop. `attempt` is the
environment's answer to awaiting loadImageWithTimeout on a given source. -/
def tryLoadImageFromSources (timestamp : Nat) (innerWidth : Nat)
    (attempt : String → Except Unit (Option String)) : Option String :=
  tryLoadFromSources attempt (imgSources (sizeHint (isMobileWidth innerWidth)) timestamp)

/-- The synchronous part of initBackground (lines 203-225): cache lookup and,
on a miss, immediate fallback gradient adoption and persistence. The third
component reports whether control continues into step 3's background fetch
(the code returns early on any cache hit). `mounted` is the liveness flag,
necessarily true during this synchronous phase. -/
def initBackgroundSync (hw : Bool) (now : Nat) (mounted : Bool)
    (st : ResolverState) (s : Storage) (randIdx : Fin FALLBACK_GRADIENTS.length) :
    ResolverState × Storage × Bool :=
  let read := getCachedBackground hw s now
  match read.fst with
  | some c =>
    if mounted then
      if c.type = CacheType.gradient then
        (⟨"gradient:" ++ c.value, true⟩, read.snd, false)
      else
        (⟨c.url, st.isLoaded⟩, read.snd, false)
    else (st, read.snd, false)
  | none =>
    let gradient := getRandomGradient randIdx
    if mounted then
      (⟨"gradient:" ++ gradient, true⟩,
       setCachedBackground hw read.snd now CacheType.gradient gradient, true)
    else (st, read.snd, true)

/-- The continuation of initBackground after `await tryLoadImageFromSources()`
(lines 228-238): `if (imageUrl && mounted)` adopt and persist the image with
isLoaded false; otherwise leave everything alone. `mounted` is the liveness
flag as it stands at resume time. -/
def initBackgroundCont (fetchResult : Option String) (mounted : Bool)
    (hw : Bool) (now : Nat) (st : ResolverState) (s : Storage) :
    ResolverState × Storage :=
  match fetchResult with
  | some url =>
    if url != "" && mounted then
      (⟨url, false⟩, setCachedBackground hw s now CacheType.image url)
    else (st, s)
  | none => (st, s)

/-- The whole initBackground effect (lines 203-241): the synchronous phase,
then — only when the synchronous phase fell through to step 3 — the fetch
continuation applied to the fetch outcome. -/
def initBackground (hw : Bool) (now : Nat) (mountedSync mountedCont : Bool)
    (randIdx : Fin FALLBACK_GRADIENTS.length) (fetchResult : Option String)
    (st : ResolverState) (s : Storage) : ResolverState × Storage :=
  let r := initBackgroundSync hw now mountedSync st s randIdx
  if r.2.2 then initBackgroundCont fetchResult mountedCont hw now r.fst r.2.1
  else (r.fst, r.2.1)

/-- The synchronous part of refreshBackground (line 253): setIsLoaded(false)
before the resolution starts. -/
def refreshBackgroundSync (st : ResolverState) : ResolverState :=
  { st with isLoaded := false }

/-- The continuation of refreshBackground after
`await tryLoadImageFromSources()` (lines 258-267): a truthy result is adopted
and persisted as an image (isLoaded untouched); otherwise a fresh random
gradient is adopted and persisted and isLoaded is set to true. Note the
source consults no liveness flag here: the `mounted` variable is local to the
init effect and out of scope in this callback. -/
def refreshBackgroundCont (fetchResult : Option String) (hw : Bool) (now : Nat)
    (randIdx : Fin FALLBACK_GRADIENTS.length) (st : ResolverState) (s : Storage) :
    ResolverState × Storage :=
  match fetchResult with
  | some url =>
    if url != "" then
      (⟨url, st.isLoaded⟩, setCachedBackground hw s now CacheType.image url)
    else
      let gradient := getRandomGradient randIdx
      (⟨"gradient:" ++ gradient, true⟩,
       setCachedBackground hw s now CacheType.gradient gradient)
  | none =>
    let gradient := getRandomGradient randIdx
    (⟨"gradient:" ++ gradient, true⟩,
     setCachedBackground hw s now CacheType.gradient gradient)

/-- The whole refreshBackground operation (lines 252-268). -/
def refreshBackground (fetchResult : Option String) (hw : Bool) (now : Nat)
    (randIdx : Fin FALLBACK_GRADIENTS.length) (st : ResolverState) (s : Storage) :
    ResolverState × Storage :=
  refreshBackgroundCont fetchResult hw now randIdx (refreshBackgroundSync st) s

/-- The refresh continuation as the event loop actually resumes it: it
receives the provider liveness at resume time, but the body of
refreshBackground (lines 252-268) never consults it, so the updates run
unconditionally. -/
def refreshContAtResume (mounted : Bool) (fetchResult : Option String)
    (hw : Bool) (now : Nat) (randIdx : Fin FALLBACK_GRADIENTS.length)
    (st : ResolverState) (s : Storage) : ResolverState × Storage :=
  refreshBackgroundCont fetchResult hw now randIdx st s

/-- The context value interface (lines 50-55): the two data fields plus the
two operations the provider exposes. -/
structure BackgroundContextType where
  backgroundUrl : String
  isLoaded : Bool
  setLoadedOp : ResolverState → ResolverState
  refreshOp : Option String → Nat → Fin FALLBACK_GRADIENTS.length →
    ResolverState → Storage → ResolverState × Storage

/-- The value the provider places in the context (line 271). -/
def mkBackgroundContext (st : ResolverState) : BackgroundContextType :=
  ⟨st.backgroundUrl, st.isLoaded, setLoaded,
   fun fetchResult now randIdx => refreshBackground fetchResult true now randIdx⟩

/-- useBackground (lines 277-283): outside the provider the context is
undefined and the hook throws the descriptive error; inside it returns the
context value unchanged. -/
def useBackground (ctx : Option BackgroundContextType) :
    Except String BackgroundContextType :=
  match ctx with
  | none => Except.error "useBackground must be used within a BackgroundProvider"
  | some c => Except.ok c

end SharedBackground

namespace SharedBackground

/-- C10: At provider mount, before the initialization protocol has run, the
exposed display value is the empty string — neither gradient-prefixed nor an
image URL the consumer would render — and ready is false. -/
theorem c10_initial_state :
    initialResolverState.backgroundUrl = ""
  ∧ initialResolverState.isLoaded = false
  ∧ isGradientUrl initialResolverState.backgroundUrl = false
  ∧ rendersImage initialResolverState.backgroundUrl = false := by
  refine ⟨rfl, rfl, ?_, ?_⟩ <;> decide

/-- Applying setLoaded on top of a state that already went through setLoaded
changes nothing: the iterate is absorbed. -/
lemma setLoaded_iterate_fix (k : Nat) (st : ResolverState) :
    setLoaded^[k] (setLoaded st) = setLoaded st := by
  induction k with
  | zero => rfl
  | succ n ih =>
    rw [Function.iterate_succ_apply]
    have h : setLoaded (setLoaded st) = setLoaded st := rfl
    rw [h, ih]

/-- C8: setLoaded is idempotent — for every resolver state, n ≥ 1 calls leave
exactly the state one call leaves. -/
theorem c8_setLoaded_idempotent (st : ResolverState) (n : Nat) (h : 1 ≤ n) :
    setLoaded^[n] st = setLoaded st := by
  obtain ⟨k, rfl⟩ : ∃ k, n = k + 1 := ⟨n - 1, by omega⟩
  rw [Function.iterate_succ_apply, setLoaded_iterate_fix]

/-- Witness for C8 at a concrete state and n = 3. -/
theorem c8_witness :
    1 ≤ 3 ∧ setLoaded^[3] ⟨"x", false⟩ = setLoaded ⟨"x", false⟩ :=
  ⟨by decide, c8_setLoaded_idempotent ⟨"x", false⟩ 3 (by decide)⟩

/-- C2 as amended: a cache read returns the persisted record only when storage
is reachable, the cell parses to a record, and the record is at most 24h old
(now - storedAt ≤ BG_EXPIRE_TIME — the source uses a strict > test for
expiry, so a record aged exactly 24h is still returned); a strictly expired
record is deleted as a side effect; a malformed cell yields absent but is left
in storage untouched; unavailable storage yields absent. The function is total,
so no storage-layer failure escapes as an exception. -/
theorem c2_cache_read_contract (hw : Bool) (s : Storage) (now : Nat) :
    (∀ rec, (getCachedBackground hw s now).fst = some rec →
      hw = true ∧ s = Storage.available (StorageCell.record rec)
        ∧ now - rec.timestamp ≤ BG_EXPIRE_TIME)
  ∧ (∀ rec, hw = true → s = Storage.available (StorageCell.record rec) →
      BG_EXPIRE_TIME < now - rec.timestamp →
      getCachedBackground hw s now = (none, Storage.available StorageCell.empty))
  ∧ (∀ raw, s = Storage.available (StorageCell.malformed raw) →
      getCachedBackground hw s now = (none, s))
  ∧ (s = Storage.unavailable → getCachedBackground hw s now = (none, s)) := by
  refine ⟨?_, ?_, ?_, ?_⟩
  · intro rec h
    cases hw with
    | false => simp [getCachedBackground] at h
    | true =>
      cases s with
      | unavailable => simp [getCachedBackground] at h
      | available cell =>
        cases cell with
        | empty => simp [getCachedBackground] at h
        | malformed raw => simp [getCachedBackground] at h
        | record r =>
          by_cases hexp : now - r.timestamp > BG_EXPIRE_TIME
          · simp [getCachedBackground, hexp] at h
          · simp [getCachedBackground, hexp] at h
            subst h
            exact ⟨rfl, rfl, by omega⟩
  · intro rec hhw hs hexp
    subst hhw; subst hs
    simp [getCachedBackground, hexp]
  · intro raw hs
    subst hs
    cases hw <;> simp [getCachedBackground]
  · intro hs
    subst hs
    cases hw <;> simp [getCachedBackground]

/-- Counterexample to C2 as stated: a record whose age is exactly 24h is
returned even though now - storedAt < 24h fails, and a malformed cell is
returned as absent without being deleted from storage. -/
theorem c2_counterexample :
    (getCachedBackground true
        (Storage.available (StorageCell.record ⟨"g", 0, CacheType.gradient, "g"⟩))
        BG_EXPIRE_TIME).fst
      = some ⟨"g", 0, CacheType.gradient, "g"⟩
  ∧ ¬ (BG_EXPIRE_TIME - 0 < BG_EXPIRE_TIME)
  ∧ getCachedBackground true (Storage.available (StorageCell.malformed "not json")) 5
      = (none, Storage.available (StorageCell.malformed "not json")) := by
  refine ⟨by decide, by decide, by decide⟩

/-- Witness for C2 as amended: the eviction clause at a concrete expired
record, and the malformed clause at a concrete unparseable cell. -/
theorem c2_witness :
    getCachedBackground true
        (Storage.available (StorageCell.record ⟨"g", 0, CacheType.gradient, "g"⟩))
        (BG_EXPIRE_TIME + 1)
      = (none, Storage.available StorageCell.empty)
  ∧ getCachedBackground true (Storage.available (StorageCell.malformed "oops")) 7
      = (none, Storage.available (StorageCell.malformed "oops")) :=
  ⟨(c2_cache_read_contract true
      (Storage.available (StorageCell.record ⟨"g", 0, CacheType.gradient, "g"⟩))
      (BG_EXPIRE_TIME + 1)).2.1 ⟨"g", 0, CacheType.gradient, "g"⟩ rfl rfl (by decide),
   (c2_cache_read_contract true
      (Storage.available (StorageCell.malformed "oops")) 7).2.2.1 "oops" rfl⟩

/-- A read against reachable storage leaves storage reachable. -/
lemma getCachedBackground_snd_available (cell : StorageCell) (now : Nat) :
    ∃ c, (getCachedBackground true (Storage.available cell) now).snd =
      Storage.available c := by
  cases cell with
  | empty => exact ⟨StorageCell.empty, rfl⟩
  | malformed raw => exact ⟨StorageCell.malformed raw, rfl⟩
  | record r =>
    by_cases h : now - r.timestamp > BG_EXPIRE_TIME
    · exact ⟨StorageCell.empty, by simp [getCachedBackground, h]⟩
    · exact ⟨StorageCell.record r, by simp [getCachedBackground, h]⟩

/-- On a cache hit the synchronous phase adopts the cached value (gradient
with ready true, image with ready untouched) and reports that the background
fetch is not started. -/
lemma initBackgroundSync_hit (now : Nat) (st : ResolverState) (s : Storage)
    (randIdx : Fin FALLBACK_GRADIENTS.length) (rec : BackgroundCache)
    (h : (getCachedBackground true s now).fst = some rec) :
    initBackgroundSync true now true st s randIdx =
      ((if rec.type = CacheType.gradient then
          (⟨"gradient:" ++ rec.value, true⟩ : ResolverState)
        else ⟨rec.url, st.isLoaded⟩),
       (getCachedBackground true s now).snd, false) := by
  rcases rec with ⟨u, ts, ty, v⟩
  cases ty <;> simp [initBackgroundSync, h]

/-- On a cache miss against reachable storage the synchronous phase adopts
the random fallback gradient with ready true, persists it, and reports that
the background fetch is started. -/
lemma initBackgroundSync_miss (now : Nat) (st : ResolverState)
    (cell : StorageCell) (randIdx : Fin FALLBACK_GRADIENTS.length)
    (h : (getCachedBackground true (Storage.available cell) now).fst = none) :
    initBackgroundSync true now true st (Storage.available cell) randIdx =
      (⟨"gradient:" ++ getRandomGradient randIdx, true⟩,
       Storage.available (StorageCell.record
         ⟨getRandomGradient randIdx, now, CacheType.gradient, getRandomGradient randIdx⟩),
       true) := by
  obtain ⟨c, hc⟩ := getCachedBackground_snd_available cell now
  simp [initBackgroundSync, h, hc, setCachedBackground]

/-- On any cache miss the synchronous phase falls through to step 3. -/
lemma initBackgroundSync_miss_fetches (hw : Bool) (now : Nat) (mounted : Bool)
    (st : ResolverState) (s : Storage) (randIdx : Fin FALLBACK_GRADIENTS.length)
    (h : (getCachedBackground hw s now).fst = none) :
    (initBackgroundSync hw now mounted st s randIdx).2.2 = true := by
  cases mounted <;> simp [initBackgroundSync, h]

/-- A falsy fetch outcome leaves the init continuation a no-op. -/
lemma initBackgroundCont_falsy (fetchResult : Option String)
    (h : truthy fetchResult = false) (mounted hw : Bool) (now : Nat)
    (st : ResolverState) (s : Storage) :
    initBackgroundCont fetchResult mounted hw now st s = (st, s) := by
  cases fetchResult with
  | none => rfl
  | some url =>
    simp only [truthy] at h
    simp [initBackgroundCont, h]

/-- C1 as amended: with a valid cached record, initialization adopts the
cached value (gradient records with ready true immediately, image records
with ready left as is) and returns early — the background image resolution of
step 3 is not attempted; it is attempted exactly when the cache yields
nothing. -/
theorem c1_cached_adoption_skips_fetch (now : Nat) (st : ResolverState)
    (s : Storage) (randIdx : Fin FALLBACK_GRADIENTS.length) :
    (∀ rec, (getCachedBackground true s now).fst = some rec →
      initBackgroundSync true now true st s randIdx =
        ((if rec.type = CacheType.gradient then
            (⟨"gradient:" ++ rec.value, true⟩ : ResolverState)
          else ⟨rec.url, st.isLoaded⟩),
         (getCachedBackground true s now).snd, false))
  ∧ ((getCachedBackground true s now).fst = none →
      (initBackgroundSync true now true st s randIdx).2.2 = true) :=
  ⟨fun rec h => initBackgroundSync_hit now st s randIdx rec h,
   fun h => initBackgroundSync_miss_fetches true now true st s randIdx h⟩

/-- Counterexample to C1 as stated: a valid cached gradient record written one
hour ago is adopted with ready true, but the third component is false — the
effect returns without starting the background image resolution of step 3,
contradicting the claim that the fetch is still attempted. -/
theorem c1_counterexample :
    initBackgroundSync true 7200000000 true initialResolverState
      (Storage.available (StorageCell.record
        ⟨"lg", 7196400000, CacheType.gradient, "lg"⟩))
      ⟨0, by decide⟩
    = (⟨"gradient:" ++ "lg", true⟩,
       Storage.available (StorageCell.record
         ⟨"lg", 7196400000, CacheType.gradient, "lg"⟩),
       false) := by decide

/-- Witness for C1 as amended at a concrete one-hour-old cached gradient. -/
theorem c1_witness :
    initBackgroundSync true 7200000000 true initialResolverState
      (Storage.available (StorageCell.record
        ⟨"lg", 7196400000, CacheType.gradient, "lg"⟩))
      ⟨1, by decide⟩
    = (⟨"gradient:" ++ "lg", true⟩,
       (getCachedBackground true
         (Storage.available (StorageCell.record
           ⟨"lg", 7196400000, CacheType.gradient, "lg"⟩)) 7200000000).snd,
       false) := by
  have h := (c1_cached_adoption_skips_fetch 7200000000 initialResolverState
      (Storage.available (StorageCell.record
        ⟨"lg", 7196400000, CacheType.gradient, "lg"⟩))
      ⟨1, by decide⟩).1
    ⟨"lg", 7196400000, CacheType.gradient, "lg"⟩ (by decide)
  simpa using h

/-- C4: when no valid cached record exists, the synchronous phase of the
initialization — before the fetch continuation can run — sets the state to a
palette gradient selected by the uniformly random index, with ready true, and
persists it as a gradient record; the palette holds at least 10 pairwise
distinct gradients and every palette entry is selectable, so a uniform index
yields a uniform gradient. -/
theorem c4_fresh_gradient_sync (now : Nat) (st : ResolverState)
    (cell : StorageCell) (randIdx : Fin FALLBACK_GRADIENTS.length)
    (hmiss : (getCachedBackground true (Storage.available cell) now).fst = none) :
    initBackgroundSync true now true st (Storage.available cell) randIdx =
      (⟨"gradient:" ++ getRandomGradient randIdx, true⟩,
       Storage.available (StorageCell.record
         ⟨getRandomGradient randIdx, now, CacheType.gradient, getRandomGradient randIdx⟩),
       true)
  ∧ 10 ≤ FALLBACK_GRADIENTS.length
  ∧ FALLBACK_GRADIENTS.Nodup
  ∧ (∀ g, g ∈ FALLBACK_GRADIENTS → ∃ i, getRandomGradient i = g) :=
  ⟨initBackgroundSync_miss now st cell randIdx hmiss, by decide, by decide, by decide⟩

/-- Witness for C4 at empty storage and the third palette index. -/
theorem c4_witness :
    initBackgroundSync true 5 true initialResolverState
      (Storage.available StorageCell.empty) ⟨2, by decide⟩
    = (⟨"gradient:" ++ getRandomGradient ⟨2, by decide⟩, true⟩,
       Storage.available (StorageCell.record
         ⟨getRandomGradient ⟨2, by decide⟩, 5, CacheType.gradient,
          getRandomGradient ⟨2, by decide⟩⟩),
       true) :=
  (c4_fresh_gradient_sync 5 initialResolverState StorageCell.empty
    ⟨2, by decide⟩ (by decide)).1

/-- C7: when initialization runs its background resolution and every source
fails or times out (a falsy fetch outcome), the final state and storage are
exactly what the synchronous phase left — the pre-fetch gradient with ready
true and a persisted gradient (not image) record — whatever the liveness flag
at resume time. -/
theorem c7_init_fetch_failure_keeps_gradient (now : Nat) (st : ResolverState)
    (cell : StorageCell) (mountedCont : Bool) (fetchResult : Option String)
    (randIdx : Fin FALLBACK_GRADIENTS.length)
    (hmiss : (getCachedBackground true (Storage.available cell) now).fst = none)
    (hfail : truthy fetchResult = false) :
    initBackground true now true mountedCont randIdx fetchResult st
        (Storage.available cell) =
      (⟨"gradient:" ++ getRandomGradient randIdx, true⟩,
       Storage.available (StorageCell.record
         ⟨getRandomGradient randIdx, now, CacheType.gradient, getRandomGradient randIdx⟩))
  ∧ initBackground true now true mountedCont randIdx fetchResult st
        (Storage.available cell) =
      ((initBackgroundSync true now true st (Storage.available cell) randIdx).fst,
       (initBackgroundSync true now true st (Storage.available cell) randIdx).2.1) := by
  have hs := initBackgroundSync_miss now st cell randIdx hmiss
  constructor <;>
    simp [initBackground, hs, initBackgroundCont_falsy fetchResult hfail]

/-- Witness for C7 at empty storage, a no-result fetch, and a continuation
that resumes while still mounted. -/
theorem c7_witness :
    initBackground true 5 true true ⟨1, by decide⟩ none initialResolverState
        (Storage.available StorageCell.empty) =
      (⟨"gradient:" ++ getRandomGradient ⟨1, by decide⟩, true⟩,
       Storage.available (StorageCell.record
         ⟨getRandomGradient ⟨1, by decide⟩, 5, CacheType.gradient,
          getRandomGradient ⟨1, by decide⟩⟩)) :=
  (c7_init_fetch_failure_keeps_gradient 5 initialResolverState StorageCell.empty
    true none ⟨1, by decide⟩ (by decide) (by decide)).1

/-- Once the race promise is resolved, every later signal is a no-op: the
resolved flag (and the listener/timer cleanup it guards) freezes the result. -/
lemma foldl_raceStep_resolved (url : String) (r : Option String)
    (rest : List RaceSignal) :
    rest.foldl (raceStep url) (some r) = some r := by
  induction rest with
  | nil => rfl
  | cons sig rest ih => rw [List.foldl_cons]; exact ih

/-- The race is decided by the first signal to settle: the load event yields
the url, the error event or the timer yields null; in every case the promise
resolves and never rejects. -/
lemma loadImageWithTimeout_first (url : String) (sig : RaceSignal)
    (rest : List RaceSignal) :
    loadImageWithTimeout url (sig :: rest) =
      some (if sig = RaceSignal.load then some url else none) := by
  cases sig <;>
    simp [loadImageWithTimeout, List.foldl_cons, raceStep, foldl_raceStep_resolved]

/-- A failing attempt yields nothing for a truthy result test. -/
lemma truthy_eq_false_of_attemptYields_none (r : Except Unit (Option String))
    (v : Option String) (hr : r = Except.ok v)
    (h : attemptYields r = none) : truthy v = false := by
  subst hr
  simp only [attemptYields] at h
  by_cases htv : truthy v = true
  · rw [if_pos htv] at h
    rw [h] at htv
    exact absurd htv (by decide)
  · exact Bool.eq_false_iff.mpr htv

/-- The loop attempts sources strictly in order: when every source before src
fails or throws and src preloads successfully to a truthy url, the loop stops
at src with exactly the prefix up to src attempted. -/
lemma tryLoadTrace_found (attempt : String → Except Unit (Option String))
    (l1 : List String) (l2 : List String) (src : String)
    (hfail : ∀ s, s ∈ l1 → attemptYields (attempt s) = none)
    (hsrc : attempt src = Except.ok (some src)) (hne : src ≠ "") :
    tryLoadFromSourcesTrace attempt (l1 ++ src :: l2) = (some src, l1 ++ [src]) := by
  induction l1 with
  | nil =>
    simp [tryLoadFromSourcesTrace, hsrc, truthy, hne]
  | cons a l1 ih =>
    have ha := hfail a (by simp)
    have hrest : ∀ s, s ∈ l1 → attemptYields (attempt s) = none :=
      fun s hs => hfail s (by simp [hs])
    cases hatt : attempt a with
    | ok v =>
      have hv := truthy_eq_false_of_attemptYields_none (attempt a) v hatt ha
      simp [tryLoadFromSourcesTrace, hatt, hv, ih hrest]
    | error e =>
      simp [tryLoadFromSourcesTrace, hatt, ih hrest]

/-- When every source fails, times out or throws, the loop attempts the whole
list and resolves with no result, raising no exception. -/
lemma tryLoadTrace_all_fail (attempt : String → Except Unit (Option String))
    (l : List String)
    (hfail : ∀ s, s ∈ l → attemptYields (attempt s) = none) :
    tryLoadFromSourcesTrace attempt l = (none, l) := by
  induction l with
  | nil => rfl
  | cons a l ih =>
    have ha := hfail a (by simp)
    have hrest : ∀ s, s ∈ l → attemptYields (attempt s) = none :=
      fun s hs => hfail s (by simp [hs])
    cases hatt : attempt a with
    | ok v =>
      have hv := truthy_eq_false_of_attemptYields_none (attempt a) v hatt ha
      simp [tryLoadFromSourcesTrace, hatt, hv, ih hrest]
    | error e =>
      simp [tryLoadFromSourcesTrace, hatt, ih hrest]

/-- The traced loop computes the same result as the loop of the source. -/
lemma tryLoadTrace_fst (attempt : String → Except Unit (Option String))
    (l : List String) :
    (tryLoadFromSourcesTrace attempt l).fst = tryLoadFromSources attempt l := by
  induction l with
  | nil => rfl
  | cons a l ih =>
    cases hatt : attempt a with
    | ok v =>
      by_cases hv : truthy v = true
      · simp [tryLoadFromSourcesTrace, tryLoadFromSources, hatt, hv]
      · have hv' : truthy v = false := Bool.eq_false_iff.mpr hv
        simp [tryLoadFromSourcesTrace, tryLoadFromSources, hatt, hv', ih]
    | error e =>
      simp [tryLoadFromSourcesTrace, tryLoadFromSources, hatt, ih]

/-- C3: resolution attempts sources strictly in declared order, one at a
time; if sources before src all failed, timed out or threw and src preloads
successfully within its timeout, the result is the url of src and no later
source is attempted; if every source fails the result is none and no
exception escapes (a throwing attempt is absorbed by the loop); the full
tryLoadImageFromSources pipeline is this loop over the declared source list;
and each attempt is decided by the first-settling race signal — the load
event before error and the 8s timer yields the url, anything else null. -/
theorem c3_sequential_resolution (attempt : String → Except Unit (Option String)) :
    (∀ (l1 l2 : List String) (src : String),
      (∀ s, s ∈ l1 → attemptYields (attempt s) = none) →
      attempt src = Except.ok (some src) → src ≠ "" →
      tryLoadFromSourcesTrace attempt (l1 ++ src :: l2) = (some src, l1 ++ [src]))
  ∧ (∀ l : List String, (∀ s, s ∈ l → attemptYields (attempt s) = none) →
      tryLoadFromSourcesTrace attempt l = (none, l))
  ∧ (∀ (ts w : Nat), tryLoadImageFromSources ts w attempt =
      (tryLoadFromSourcesTrace attempt
        (imgSources (sizeHint (isMobileWidth w)) ts)).fst)
  ∧ (∀ (url : String) (sig : RaceSignal) (rest : List RaceSignal),
      loadImageWithTimeout url (sig :: rest) =
        some (if sig = RaceSignal.load then some url else none)) :=
  ⟨fun l1 l2 src hfail hsrc hne => tryLoadTrace_found attempt l1 l2 src hfail hsrc hne,
   fun l hfail => tryLoadTrace_all_fail attempt l hfail,
   fun ts w => (tryLoadTrace_fst attempt _).symm,
   fun url sig rest => loadImageWithTimeout_first url sig rest⟩

/-- Witness for C3: a three-source list where the first source resolves null
and the second succeeds — the second url is chosen and the third source is
never attempted. -/
theorem c3_witness :
    tryLoadFromSourcesTrace
        (fun s => if s = "b" then Except.ok (some "b") else Except.ok none)
        (["a"] ++ "b" :: ["c"])
      = (some "b", ["a"] ++ ["b"]) :=
  (c3_sequential_resolution
      (fun s => if s = "b" then Except.ok (some "b") else Except.ok none)).1
    ["a"] ["c"] "b" (by decide) rfl (by decide)

/-- C6: refresh first clears ready, then resolves; a successful resolution is
adopted and persisted as an image with ready still false (awaiting the
load-completion signal), a failed one is replaced by the freshly drawn random
fallback gradient, adopted, persisted and marked ready — so refresh ends with
ready true exactly when it degraded to a gradient. -/
theorem c6_refresh_contract (fetchResult : Option String) (now : Nat)
    (randIdx : Fin FALLBACK_GRADIENTS.length) (st : ResolverState)
    (cell : StorageCell) :
    (refreshBackgroundSync st).isLoaded = false
  ∧ (∀ url, fetchResult = some url → url ≠ "" →
      refreshBackground fetchResult true now randIdx st (Storage.available cell) =
        (⟨url, false⟩,
         Storage.available (StorageCell.record ⟨url, now, CacheType.image, url⟩)))
  ∧ (truthy fetchResult = false →
      refreshBackground fetchResult true now randIdx st (Storage.available cell) =
        (⟨"gradient:" ++ getRandomGradient randIdx, true⟩,
         Storage.available (StorageCell.record
           ⟨getRandomGradient randIdx, now, CacheType.gradient, getRandomGradient randIdx⟩)))
  ∧ ((refreshBackground fetchResult true now randIdx st
        (Storage.available cell)).fst.isLoaded = true ↔ truthy fetchResult = false) := by
  refine ⟨rfl, ?_, ?_, ?_⟩
  · intro url hurl hne
    subst hurl
    simp [refreshBackground, refreshBackgroundCont, refreshBackgroundSync,
      setCachedBackground, hne]
  · intro hfalsy
    cases fetchResult with
    | none =>
      simp [refreshBackground, refreshBackgroundCont, refreshBackgroundSync,
        setCachedBackground]
    | some url =>
      simp only [truthy] at hfalsy
      simp [refreshBackground, refreshBackgroundCont, refreshBackgroundSync,
        setCachedBackground, hfalsy]
  · cases fetchResult with
    | none =>
      simp [refreshBackground, refreshBackgroundCont, refreshBackgroundSync, truthy]
    | some url =>
      by_cases hne : url = ""
      · subst hne
        simp [refreshBackground, refreshBackgroundCont, refreshBackgroundSync, truthy]
      · have hb : (url != "") = true := by simp [hne]
        simp [refreshBackground, refreshBackgroundCont, refreshBackgroundSync,
          truthy, hb]

/-- Witness for C6: a successful refresh at a concrete url adopts it with
ready false and persists the image record. -/
theorem c6_witness :
    refreshBackground (some "https://pic.example/x.jpg") true 99 ⟨0, by decide⟩
        ⟨"gradient:old", true⟩ (Storage.available StorageCell.empty) =
      (⟨"https://pic.example/x.jpg", false⟩,
       Storage.available (StorageCell.record
         ⟨"https://pic.example/x.jpg", 99, CacheType.image,
          "https://pic.example/x.jpg"⟩)) :=
  (c6_refresh_contract (some "https://pic.example/x.jpg") 99 ⟨0, by decide⟩
      ⟨"gradient:old", true⟩ StorageCell.empty).2.1
    "https://pic.example/x.jpg" rfl (by decide)

/-- C5 at the failing input: a refresh resolution that completes after the
provider unmounted still overwrites the shared state and the cache — the
refresh continuation consults no liveness flag (the mounted variable is local
to the init effect), in contrast with the init continuation, which under the
same dead liveness flag leaves state and storage untouched. -/
theorem c5_refresh_cont_ignores_unmount :
    refreshContAtResume false (some "https://img.example/a.jpg") true 1000
        ⟨0, by decide⟩ ⟨"gradient:old", false⟩ (Storage.available StorageCell.empty)
      = (⟨"https://img.example/a.jpg", false⟩,
         Storage.available (StorageCell.record
           ⟨"https://img.example/a.jpg", 1000, CacheType.image,
            "https://img.example/a.jpg"⟩))
  ∧ (⟨"https://img.example/a.jpg", false⟩ : ResolverState) ≠ ⟨"gradient:old", false⟩
  ∧ initBackgroundCont (some "https://img.example/a.jpg") false true 1000
        ⟨"gradient:old", false⟩ (Storage.available StorageCell.empty)
      = (⟨"gradient:old", false⟩, Storage.available StorageCell.empty) := by
  refine ⟨by decide, by decide, by decide⟩

/-- C9: the consumer surface accessor returns the provider value exactly when
one is in scope; outside the provider scope it fails fast with the
descriptive usage error, and that is the only way it produces an error —
every error it returns comes from the absent context and carries that
message. -/
theorem c9_useBackground_gating :
    (∀ c, useBackground (some c) = Except.ok c)
  ∧ useBackground none =
      Except.error "useBackground must be used within a BackgroundProvider"
  ∧ (∀ o e, useBackground o = Except.error e →
      o = none ∧ e = "useBackground must be used within a BackgroundProvider")
  ∧ (∀ st, useBackground (some (mkBackgroundContext st)) =
      Except.ok (mkBackgroundContext st)) := by
  refine ⟨fun c => rfl, rfl, ?_, fun st => rfl⟩
  intro o e h
  cases o with
  | none =>
    simp only [useBackground, Except.error.injEq] at h
    exact ⟨rfl, h.symm⟩
  | some c => simp [useBackground] at h

/-- Witness for C9: the accessor succeeds on the provider value of the mount
state, and the error clause applied to the out-of-scope read confirms the
absent context and the message. -/
theorem c9_witness :
    useBackground (some (mkBackgroundContext initialResolverState)) =
      Except.ok (mkBackgroundContext initialResolverState)
  ∧ ((none : Option BackgroundContextType) = none
  ∧ "useBackground must be used within a BackgroundProvider" =
      "useBackground must be used within a BackgroundProvider") :=
  ⟨c9_useBackground_gating.2.2.2 initialResolverState,
   c9_useBackground_gating.2.2.1 none
     "useBackground must be used within a BackgroundProvider"
     c9_useBackground_gating.2.1⟩

end SharedBackground
